import Mathlib

/-!
Verification of the enrichment, quality-scoring and storage-guard subsystem of
the Open Data weather pipeline (Cours_Open_Data_tp2).

The Python sources are shallowly embedded: records (Python dicts produced by
WeatherForecast.dict) become a structure with optional fields, the geocoding
cache (a Python dict) becomes a function from keys to optional results, floats
become rationals, and the per-object mutable counters of DataEnricher become
explicit state passing.
-/

namespace PipelineModel

/-- GeocodingResult from pipeline/models.py: one result per queried address. -/
structure GeocodingResult where
  original_address : String
  label : Option String := none
  latitude : Option ℚ := none
  longitude : Option ℚ := none
  score : ℚ := 0
  postal_code : Option String := none
  city_code : Option String := none
  city : Option String := none
deriving DecidableEq

/-- GeocodingResult.is_valid (models.py lines 49-51): score at least 0.5 and
latitude present. The threshold 0.5 is written mkRat 1 2 so that concrete
instances evaluate inside the kernel. -/
def GeocodingResult.is_valid (g : GeocodingResult) : Bool :=
  decide (mkRat 1 2 ≤ g.score) && g.latitude.isSome

/-- One forecast record, as the dict produced by WeatherForecast.dict
(models.py lines 8-34) and consumed by the enricher and the quality analyzer.
fetched_at and quality_score are irrelevant to every claim and omitted;
latitude and longitude are kept optional because the enricher may write an
optional geocoded longitude into them. -/
structure Forecast where
  date : String
  latitude : Option ℚ := none
  longitude : Option ℚ := none
  temperature_max : Option ℚ := none
  temperature_min : Option ℚ := none
  precipitation_sum : Option ℚ := none
  weather_code : Option Int := none
  original_city_name : String
  validated_city : Option String := none
  validated_postal_code : Option String := none
  geocoding_score : Option ℚ := none
deriving DecidableEq

/-- Append an element to a list unless already present: the observable effect
of adding to a Python set, keeping first-insertion order. -/
def addOnce {α : Type} [DecidableEq α] (l : List α) (a : α) : List α :=
  if a ∈ l then l else l ++ [a]

/-- First-occurrence deduplication of a list (the distinct values in order). -/
def dedupFirst {α : Type} [DecidableEq α] (l : List α) : List α :=
  l.foldl addOnce []

/-- Python str.strip with no argument: remove whitespace from both ends of
the string. Written over the character list so that it evaluates. -/
def pyStrip (s : String) : String :=
  String.mk
    (((s.toList.dropWhile Char.isWhitespace).reverse.dropWhile
        Char.isWhitespace).reverse)

/-- The loop body of DataEnricher.extract_addresses (enricher.py lines
27-30): when the city name is a truthy string whose strip is truthy, the
stripped name is added to the set. -/
def extractStep (acc : List String) (f : Forecast) : List String :=
  if f.original_city_name ≠ "" ∧ pyStrip f.original_city_name ≠ "" then
    addOnce acc (pyStrip f.original_city_name)
  else acc

/-- DataEnricher.extract_addresses (enricher.py lines 21-32): collects into a
set the stripped city name of every forecast whose name is a non-blank string.
The address_field argument is always original_city_name in this pipeline. -/
def extract_addresses (forecasts : List Forecast) : List String :=
  forecasts.foldl extractStep []

/-- The geocoding cache: a Python dict from address strings to results. -/
def GeoCache : Type := String → Option GeocodingResult

/-- Dict assignment cache[k] = v. -/
def cacheInsert (c : GeoCache) (k : String) (v : GeocodingResult) : GeoCache :=
  fun x => if x = k then some v else c x

/-- The empty dict. -/
def emptyCache : GeoCache := fun _ => none

/-- Modelled from the spec: fetchers/adresse.py is not under src/. Section 4.1
of the spec describes AdresseFetcher.fetch_all as making exactly one external
geocode-lookup call per address of its argument list, each call yielding one
GeocodingResult (a failed lookup yields a score-0 result rather than aborting).
The external collaborator is the function lookup. -/
def fetch_all (lookup : String → GeocodingResult) (addresses : List String) :
    List GeocodingResult :=
  addresses.map lookup

/-- Modelled from the spec: the number of external geocode-lookup calls made by
fetch_all on a list of addresses — one per list element (spec section 4.1). -/
def geocode_lookup_calls (addresses : List String) : Nat :=
  addresses.length

/-- DataEnricher.build_geocoding_cache (enricher.py lines 35-44): stores each
result of fetch_all under its original_address key. -/
def build_geocoding_cache (lookup : String → GeocodingResult)
    (addresses : List String) : GeoCache :=
  (fetch_all lookup addresses).foldl
    (fun c r => cacheInsert c r.original_address r) emptyCache

/-- The mutable counters of DataEnricher.enrichment_stats
(enricher.py lines 15-19). -/
structure EnrichStats where
  total_processed : Nat
  successfully_enriched : Nat
  failed_enrichment : Nat
deriving DecidableEq

/-- The counters at DataEnricher construction time. -/
def initStats : EnrichStats := ⟨0, 0, 0⟩

/-- The record produced for one forecast by the loop body of
DataEnricher.enrich_forecasts (enricher.py lines 58-80): a copy of the input,
with the three enrichment fields written on a cache hit and the coordinates
overwritten only when the hit is_valid. -/
def enrichOne (cache : GeoCache) (f : Forecast) : Forecast :=
  match cache f.original_city_name with
  | none => f
  | some geo =>
      let f1 := { f with
        validated_city := geo.city
        validated_postal_code := geo.postal_code
        geocoding_score := some geo.score }
      if geo.is_valid then
        { f1 with latitude := geo.latitude, longitude := geo.longitude }
      else f1

/-- The counter updates performed for one forecast by the same loop body. -/
def statsStep (cache : GeoCache) (s : EnrichStats) (f : Forecast) :
    EnrichStats :=
  let s1 := { s with total_processed := s.total_processed + 1 }
  match cache f.original_city_name with
  | none => s1
  | some geo =>
      if geo.is_valid then
        { s1 with successfully_enriched := s1.successfully_enriched + 1 }
      else
        { s1 with failed_enrichment := s1.failed_enrichment + 1 }

/-- DataEnricher.enrich_forecasts (enricher.py lines 47-82): one pass over the
input records, building the output list and threading the stats counters. -/
def enrich_forecasts (cache : GeoCache) :
    List Forecast → EnrichStats → List Forecast × EnrichStats
  | [], s => ([], s)
  | f :: fs, s =>
      let s1 := statsStep cache s f
      let rest := enrich_forecasts cache fs s1
      (enrichOne cache f :: rest.1, rest.2)

/-- DataEnricher.get_stats (enricher.py lines 84-94): the derived success
rate, 0 when nothing was processed. -/
def success_rate (s : EnrichStats) : ℚ :=
  if 0 < s.total_processed then
    (s.successfully_enriched : ℚ) / (s.total_processed : ℚ) * 100
  else 0

/-- The duplicate-detection key of QualityAnalyzer.count_duplicates
(quality.py line 35): the pair (date, original_city_name). -/
def dupKey (f : Forecast) : String × String :=
  (f.date, f.original_city_name)

/-- The row-marking performed by pandas DataFrame.duplicated with its default
keep-first behaviour, specialised to the (date, original_city_name) subset:
a row counts when its key already occurred in an earlier row; seen is the set
of keys of the rows already scanned. -/
def countDupFrom (seen : List (String × String)) : List Forecast → Nat
  | [] => 0
  | f :: fs =>
      if dupKey f ∈ seen then 1 + countDupFrom seen fs
      else countDupFrom (addOnce seen (dupKey f)) fs

/-- QualityAnalyzer.count_duplicates (quality.py lines 30-40), duplicate
count component. -/
def count_duplicates (fs : List Forecast) : Nat :=
  countDupFrom [] fs

/-- QualityAnalyzer.count_duplicates (quality.py lines 30-40), percentage
component: duplicates / len * 100, or 0 on an empty table. -/
def duplicates_pct (fs : List Forecast) : ℚ :=
  if 0 < fs.length then (count_duplicates fs : ℚ) / (fs.length : ℚ) * 100
  else 0

/-- The binding valid_records = len(self.df) - duplicates in
QualityAnalyzer.analyze (quality.py line 97). -/
def valid_records (fs : List Forecast) : Int :=
  (fs.length : Int) - (count_duplicates fs : Int)

/-- QualityAnalyzer.determine_grade (quality.py lines 57-88), written as the
source accumulates the score: completeness points, then the stepped duplicate
points, then the geocoding points (hasGeoColumn is the test whether a
geocoding_score column exists in the DataFrame), then the letter bucket. -/
def determine_grade (completeness duplicates_pct geo_rate : ℚ)
    (hasGeoColumn : Bool) : String :=
  let score0 : ℚ := 0
  let score1 := score0 + min (completeness * 40) 40
  let score2 :=
    if duplicates_pct ≤ 1 then score1 + 30
    else if duplicates_pct ≤ 5 then score1 + 20
    else if duplicates_pct ≤ 10 then score1 + 10
    else score1
  let score3 :=
    if hasGeoColumn then score2 + min (geo_rate / 100 * 30) 30
    else score2 + 30
  if 90 ≤ score3 then "A"
  else if 75 ≤ score3 then "B"
  else if 60 ≤ score3 then "C"
  else if 40 ≤ score3 then "D"
  else "F"

/-- Spec-side restatement of the point formula of claim C1: min(completeness
times 40, 40), plus the stepped duplicate band, plus the geocoding points
gated on the presence of the geocoding column. Kept separate from
determine_grade so the two can be compared. -/
def specQualityScore (completeness duplicates_pct geo_rate : ℚ)
    (hasGeoColumn : Bool) : ℚ :=
  min (completeness * 40) 40
    + (if duplicates_pct ≤ 1 then 30
       else if duplicates_pct ≤ 5 then 20
       else if duplicates_pct ≤ 10 then 10
       else 0)
    + (if hasGeoColumn then min (geo_rate / 100 * 30) 30 else 30)

/-- Spec-side letter bucketing of claim C1: A at 90 and above, B at 75, C at
60, D at 40, else F. -/
def specLetter (score : ℚ) : String :=
  if 90 ≤ score then "A"
  else if 75 ≤ score then "B"
  else if 60 ≤ score then "C"
  else if 40 ≤ score then "D"
  else "F"

/-- A filename matches the single-star glob pattern a*b: it decomposes as the
characters of a, then anything, then the characters of b. Filenames are taken
as character lists. -/
def globStarMatch (a b name : List Char) : Bool :=
  a.isPrefixOf name && b.isSuffixOf (name.drop a.length)

/-- StorageManager.file_exists_for_today (storage.py lines 47-55): true when
some file of the directory matches the glob pattern prefix_datestr_*.md,
where datestr is the current %Y%m%d date. The directory listing and the date
are passed in explicitly. -/
def file_exists_for_today (files : List String) (pre dateStr : String) :
    Bool :=
  files.any fun name =>
    globStarMatch (pre ++ "_" ++ dateStr ++ "_").toList ".md".toList
      name.toList

/-- Spec-side pattern of claim C6: any file matching prefix_datestr_* with no
constraint on the extension. -/
def specGuardMatch (files : List String) (pre dateStr : String) : Bool :=
  files.any fun name =>
    globStarMatch (pre ++ "_" ++ dateStr ++ "_").toList [] name.toList

/-- The incremental-guard step of run_pipeline (main.py lines 76-79): when
file_exists_for_today holds for the meteo_quality prefix in the reports
directory, the pipeline returns the skipped_incremental status before step 1;
otherwise it proceeds. Only the guard outcome is modelled. -/
def run_pipeline_guard (reportFiles : List String) (dateStr : String) :
    String :=
  if file_exists_for_today reportFiles "meteo_quality" dateStr then
    "skipped_incremental"
  else "proceeds"

/-- One entry of the models_to_try list of
QualityAnalyzer.generate_ai_recommendations (quality.py lines 133-136):
a model name with an optional api_base override. -/
structure ProviderConfig where
  model : String
  api_base : Option String := none
deriving DecidableEq

/-- The outcome of one litellm completion call: the produced text, or an
AuthenticationError, or any other exception. -/
inductive ProviderOutcome where
  | ok : String → ProviderOutcome
  | authError : ProviderOutcome
  | otherError : String → ProviderOutcome
deriving DecidableEq

/-- The models_to_try list (quality.py lines 133-136): gemini first with no
api_base, then local ollama with the OLLAMA_BASE_URL setting. -/
def models_to_try (ollamaBase : String) : List ProviderConfig :=
  [⟨"gemini/gemini-2.5-flash-lite", none⟩,
   ⟨"ollama/mistral", some ollamaBase⟩]

/-- The fixed degraded text returned after every provider failed
(quality.py line 172). -/
def fallbackMessage : String :=
  "❌ Recommandations IA indisponibles. Erreur d\x27authentification ou Ollama n\x27est pas lancé/configuré."

/-- The fallback loop of QualityAnalyzer.generate_ai_recommendations
(quality.py lines 144-172): providers are tried in list order; a successful
call returns its text at once; an AuthenticationError or any other exception
moves on to the next provider; an exhausted list yields fallbackMessage.
The litellm collaborator is the function call. -/
def generate_ai_recommendations (call : ProviderConfig → ProviderOutcome) :
    List ProviderConfig → String
  | [] => fallbackMessage
  | p :: ps =>
      match call p with
      | ProviderOutcome.ok text => text
      | ProviderOutcome.authError => generate_ai_recommendations call ps
      | ProviderOutcome.otherError _ => generate_ai_recommendations call ps

/-- The duplicate-removal key used by the pipeline run (main.py line 122):
the triple (date, latitude, longitude). -/
def transformerKey (f : Forecast) : String × Option ℚ × Option ℚ :=
  (f.date, f.latitude, f.longitude)

/-- Modelled from the spec: transformer.py is not under src/. Spec section
4.3 stage 1 describes DataTransformer.remove_duplicates as grouping rows by
the exact tuple of values in the key columns and keeping the first occurrence
in original order; the pipeline keys it on (date, latitude, longitude)
(main.py line 122). seen is the set of keys already kept. -/
def removeDuplicatesFrom (seen : List (String × Option ℚ × Option ℚ)) :
    List Forecast → List Forecast
  | [] => []
  | f :: fs =>
      if transformerKey f ∈ seen then removeDuplicatesFrom seen fs
      else f :: removeDuplicatesFrom (addOnce seen (transformerKey f)) fs

/-- Modelled from the spec: DataTransformer.remove_duplicates on the key
columns used by run_pipeline, see removeDuplicatesFrom. -/
def remove_duplicates (fs : List Forecast) : List Forecast :=
  removeDuplicatesFrom [] fs

/-- Modelled from the spec: transformer.py is not under src/. Spec section
4.3 stage 4 derives precipitation_category from precipitation_sum by ordered
thresholds into four buckets; the exact cut points are left open by the spec,
so they are the parameters c1 ≤ c2 ≤ c3. The bucket index: 0 for none, 1 for
low, 2 for moderate, 3 for high. -/
def precipitationBucket (c1 c2 c3 p : ℚ) : Nat :=
  if p ≤ c1 then 0
  else if p ≤ c2 then 1
  else if p ≤ c3 then 2
  else 3

/-- Modelled from the spec: the French bucket labels, the top one being
"forte" as asserted by tests/test_transformer.py line 64. -/
def bucketLabel (n : Nat) : String :=
  if n = 0 then "aucune"
  else if n = 1 then "faible"
  else if n = 2 then "modérée"
  else "forte"

/-- Modelled from the spec: the derived precipitation_category of a row,
see precipitationBucket. -/
def precipitation_category (c1 c2 c3 p : ℚ) : String :=
  bucketLabel (precipitationBucket c1 c2 c3 p)

/-- A forecast whose city name hits the cache with an is_valid result:
the branch of enrich_forecasts that increments successfully_enriched. -/
def matchedValid (cache : GeoCache) (f : Forecast) : Bool :=
  match cache f.original_city_name with
  | some g => g.is_valid
  | none => false

/-- A forecast whose city name hits the cache with a non-valid result:
the branch of enrich_forecasts that increments failed_enrichment. -/
def matchedInvalid (cache : GeoCache) (f : Forecast) : Bool :=
  match cache f.original_city_name with
  | some g => !g.is_valid
  | none => false

/-- Concrete inputs used to instantiate the theorems. A geocoding result with
a good score and coordinates present. -/
def demoGeoValid : GeocodingResult :=
  { original_address := "Paris"
    latitude := some (mkRat 488566 10000)
    longitude := some (mkRat 23522 10000)
    score := mkRat 9 10
    postal_code := some "75001"
    city := some "Paris" }

/-- A geocoding result with a low score: not is_valid. -/
def demoGeoInvalid : GeocodingResult :=
  { original_address := "Lyon"
    latitude := some 45
    longitude := some 4
    score := mkRat 1 10
    city := some "Lyon" }

/-- A one-entry cache holding the valid Paris result. -/
def demoCache : GeoCache := cacheInsert emptyCache "Paris" demoGeoValid

/-- A forecast record for Paris with already-clean city name. -/
def fcParis : Forecast :=
  { date := "2025-12-01"
    latitude := some 48
    longitude := some 2
    original_city_name := "Paris" }

/-- A forecast record whose city name carries surrounding whitespace. -/
def fcPadded : Forecast :=
  { date := "2025-12-02"
    latitude := some 48
    longitude := some 2
    original_city_name := " Paris " }

/-- A forecast record sharing date and coordinates with fcParis but naming a
different city: the two duplicate keys of the pipeline tell them apart. -/
def fcLyonSameCoords : Forecast :=
  { date := "2025-12-01"
    latitude := some 48
    longitude := some 2
    original_city_name := "Lyon" }

/-- An address-preserving external lookup used for concrete instantiations:
every queried address resolves with a good score. -/
def demoLookup (a : String) : GeocodingResult :=
  { original_address := a
    latitude := some 1
    longitude := some 1
    score := mkRat 9 10
    city := some a }

/-- A directory listing holding only a non-markdown artifact carrying the
current date. -/
def cexFilesJson : List String := ["meteo_quality_20261012_120000.json"]

/-- A directory listing holding a quality report generated on 2026-10-12. -/
def reportFilesToday : List String := ["meteo_quality_20261012_153000.md"]

/-- A directory listing holding only the report of the previous day. -/
def reportFilesYesterdayOnly : List String :=
  ["meteo_quality_20261011_153000.md"]

/-- A collaborator for which the first provider fails authentication and the
local ollama provider answers. -/
def demoCallOk : ProviderConfig → ProviderOutcome := fun p =>
  if p.model = "ollama/mistral" then
    ProviderOutcome.ok "Corriger les coordonnées dupliquées."
  else ProviderOutcome.authError

/-- A collaborator for which every provider fails authentication. -/
def demoCallAllFail : ProviderConfig → ProviderOutcome := fun _ =>
  ProviderOutcome.authError

/-! Helper lemmas. -/

/-- Membership after a set insertion. -/
theorem mem_addOnce {α : Type} [DecidableEq α] {l : List α} {a b : α} :
    a ∈ addOnce l b ↔ a ∈ l ∨ a = b := by
  unfold addOnce
  split_ifs with h
  · constructor
    · exact Or.inl
    · rintro (hm | rfl) <;> [exact hm; exact h]
  · simp [List.mem_append]

/-- Inserting a present element leaves the set unchanged. -/
theorem addOnce_eq_of_mem {α : Type} [DecidableEq α] {l : List α} {b : α}
    (h : b ∈ l) : addOnce l b = l := by
  unfold addOnce; simp [h]

/-- Inserting a new element grows the set by one. -/
theorem length_addOnce_of_not_mem {α : Type} [DecidableEq α] {l : List α}
    {b : α} (h : b ∉ l) : (addOnce l b).length = l.length + 1 := by
  unfold addOnce; simp [h]

/-- The counter update of one enrichment iteration, in closed form. -/
theorem statsStep_eq (cache : GeoCache) (s : EnrichStats) (f : Forecast) :
    statsStep cache s f =
      ⟨s.total_processed + 1,
       s.successfully_enriched + (if matchedValid cache f then 1 else 0),
       s.failed_enrichment + (if matchedInvalid cache f then 1 else 0)⟩ := by
  unfold statsStep matchedValid matchedInvalid
  cases h : cache f.original_city_name with
  | none => simp
  | some g => cases hv : g.is_valid <;> simp [hv]

/-- Closed form of the whole enrichment pass: the output rows are the mapped
loop body and every counter grows by the corresponding match count. -/
theorem enrich_forecasts_eq (cache : GeoCache) (fs : List Forecast) :
    ∀ s : EnrichStats,
      enrich_forecasts cache fs s =
        (fs.map (enrichOne cache),
         ⟨s.total_processed + fs.length,
          s.successfully_enriched + fs.countP (fun f => matchedValid cache f),
          s.failed_enrichment + fs.countP (fun f => matchedInvalid cache f)⟩) := by
  induction fs with
  | nil => intro s; simp [enrich_forecasts]
  | cons f fs ih =>
      intro s
      simp only [enrich_forecasts, ih, statsStep_eq, List.map_cons,
        List.countP_cons, List.length_cons, Prod.mk.injEq,
        EnrichStats.mk.injEq]
      refine ⟨trivial, ?_, ?_, ?_⟩ <;> (try split_ifs) <;> omega

/-- Scanning a batch adds every fresh duplicate-key to the seen set and
counts every repeated one: distinct keys plus counted duplicates exhaust the
rows. -/
theorem countDup_distinct (fs : List Forecast) : ∀ seen,
    ((fs.map dupKey).foldl addOnce seen).length + countDupFrom seen fs =
      seen.length + fs.length := by
  induction fs with
  | nil => intro seen; simp [countDupFrom]
  | cons f fs ih =>
      intro seen
      simp only [List.map_cons, List.foldl_cons, countDupFrom,
        List.length_cons]
      by_cases h : dupKey f ∈ seen
      · rw [if_pos h, addOnce_eq_of_mem h]
        have := ih seen
        omega
      · rw [if_neg h]
        have := ih (addOnce seen (dupKey f))
        rw [length_addOnce_of_not_mem h] at this
        omega

/-- The extraction loop body, rephrased: since a name whose strip is
non-empty is itself non-empty, the truthiness test collapses to the strip
being non-empty. -/
theorem extractStep_eq (acc : List String) (f : Forecast) :
    extractStep acc f =
      if pyStrip f.original_city_name ≠ "" then
        addOnce acc (pyStrip f.original_city_name)
      else acc := by
  unfold extractStep
  by_cases h : pyStrip f.original_city_name = ""
  · simp [h]
  · have hne : f.original_city_name ≠ "" := fun he => h (by rw [he]; decide)
    simp [h, hne]

/-- The extraction fold only ever inserts: membership is preserved. -/
theorem mem_foldl_extractStep {a : String} (fs : List Forecast) :
    ∀ acc, a ∈ acc → a ∈ fs.foldl extractStep acc := by
  induction fs with
  | nil => intro acc h; simpa using h
  | cons f fs ih =>
      intro acc h
      simp only [List.foldl_cons]
      apply ih
      rw [extractStep_eq]
      split_ifs
      · exact mem_addOnce.mpr (Or.inl h)
      · exact h

/-- The stripped name of every non-blank record ends up in the extraction. -/
theorem strip_mem_foldl_extractStep (fs : List Forecast) :
    ∀ acc, ∀ f ∈ fs, pyStrip f.original_city_name ≠ "" →
      pyStrip f.original_city_name ∈ fs.foldl extractStep acc := by
  induction fs with
  | nil => intro acc f hf; simp at hf
  | cons g fs ih =>
      intro acc f hf hne
      rcases List.mem_cons.mp hf with rfl | hf
      · simp only [List.foldl_cons]
        apply mem_foldl_extractStep
        rw [extractStep_eq, if_pos hne]
        exact mem_addOnce.mpr (Or.inr rfl)
      · simp only [List.foldl_cons]
        exact ih _ f hf hne

/-- Conversely, everything the extraction fold produces is either carried in
from the accumulator or is the stripped name of some input record. -/
theorem mem_foldl_extractStep_inv (fs : List Forecast) :
    ∀ acc a, a ∈ fs.foldl extractStep acc →
      a ∈ acc ∨ ∃ f ∈ fs, a = pyStrip f.original_city_name := by
  induction fs with
  | nil => intro acc a h; exact Or.inl (by simpa using h)
  | cons g fs ih =>
      intro acc a h
      simp only [List.foldl_cons] at h
      rcases ih _ a h with hacc | ⟨f, hf, rfl⟩
      · rw [extractStep_eq] at hacc
        split_ifs at hacc
        · rcases mem_addOnce.mp hacc with h1 | rfl
          · exact Or.inl h1
          · exact Or.inr ⟨g, List.mem_cons_self g fs, rfl⟩
        · exact Or.inl hacc
      · exact Or.inr ⟨f, List.mem_cons_of_mem g hf, rfl⟩

/-- On records whose names are already stripped and non-blank, the extraction
fold degenerates to plain first-occurrence set insertion of the raw names. -/
theorem extract_eq_dedup_of_clean (fs : List Forecast) :
    ∀ acc,
      (∀ f ∈ fs, pyStrip f.original_city_name = f.original_city_name ∧
        f.original_city_name ≠ "") →
      fs.foldl extractStep acc =
        fs.foldl (fun l f => addOnce l f.original_city_name) acc := by
  induction fs with
  | nil => intro acc _; rfl
  | cons g gs ih =>
      intro acc h
      obtain ⟨hg1, hg2⟩ := h g (List.mem_cons_self g gs)
      simp only [List.foldl_cons]
      rw [extractStep_eq, if_pos (by rw [hg1]; exact hg2), hg1]
      exact ih _ (fun f hf => h f (List.mem_cons_of_mem g hf))

/-- Dict semantics of the cache-building fold: when the lookup preserves the
queried address, an address maps to its looked-up result exactly when it was
in the request list. -/
theorem build_cache_foldl (lookup : String → GeocodingResult)
    (hlk : ∀ a, (lookup a).original_address = a) (addrs : List String) :
    ∀ (c : GeoCache) (a : String),
      (addrs.foldl
        (fun c x => cacheInsert c (lookup x).original_address (lookup x))
        c) a = if a ∈ addrs then some (lookup a) else c a := by
  induction addrs with
  | nil => intro c a; simp
  | cons x rest ih =>
      intro c a
      simp only [List.foldl_cons]
      rw [ih]
      by_cases hr : a ∈ rest
      · simp [hr]
      · by_cases hx : a = x
        · subst hx
          simp [hr, cacheInsert, hlk]
        · simp [hr, hx, cacheInsert, hlk]

/-- The cache built by build_geocoding_cache answers exactly the requested
addresses, with the looked-up result. -/
theorem build_geocoding_cache_apply (lookup : String → GeocodingResult)
    (hlk : ∀ a, (lookup a).original_address = a) (addrs : List String)
    (a : String) :
    build_geocoding_cache lookup addrs a =
      if a ∈ addrs then some (lookup a) else none := by
  unfold build_geocoding_cache fetch_all
  rw [List.foldl_map]
  exact build_cache_foldl lookup hlk addrs emptyCache a

/-- A filename matches the single-star pattern exactly when it decomposes
around some middle segment. -/
theorem globStarMatch_iff (a b n : List Char) :
    globStarMatch a b n = true ↔ ∃ mid, n = a ++ mid ++ b := by
  unfold globStarMatch
  rw [Bool.and_eq_true, List.isPrefixOf_iff_prefix, List.isSuffixOf_iff_suffix]
  constructor
  · rintro ⟨⟨t, rfl⟩, hs⟩
    rw [List.drop_left] at hs
    obtain ⟨s, rfl⟩ := hs
    exact ⟨s, by rw [List.append_assoc]⟩
  · rintro ⟨mid, rfl⟩
    refine ⟨⟨mid ++ b, by rw [List.append_assoc]⟩, ?_⟩
    rw [List.append_assoc, List.drop_left]
    exact ⟨mid, rfl⟩

/-- An exhausted provider list yields the fixed degraded text. -/
theorem generate_all_fail (call : ProviderConfig → ProviderOutcome) :
    ∀ ps : List ProviderConfig,
      (∀ q ∈ ps, ∀ s, call q ≠ ProviderOutcome.ok s) →
      generate_ai_recommendations call ps = fallbackMessage := by
  intro ps
  induction ps with
  | nil => intro _; rfl
  | cons q ps ih =>
      intro h
      unfold generate_ai_recommendations
      cases hc : call q with
      | ok s => exact absurd hc (h q (List.mem_cons_self q ps) s)
      | authError => exact ih fun r hr => h r (List.mem_cons_of_mem q hr)
      | otherError e => exact ih fun r hr => h r (List.mem_cons_of_mem q hr)

/-! Claim theorems. -/

/-- C1: for every batch, determine_grade computes the score as
min(completeness times 40, 40), plus the stepped duplicate contribution
(30 when duplicates_pct is at most 1, else 20 at most 5, else 10 at most 10,
else 0, first band wins), plus min(geo_rate / 100 times 30, 30) when a
geocoding_score column exists and the full 30 points unconditionally when it
does not, and then buckets the total with exact boundaries: 90 gives A,
89.999 gives B, and identically at 75, 60 and 40. -/
theorem C1_grade_formula_and_boundaries (c d g : ℚ) (b : Bool) :
    determine_grade c d g b = specLetter (specQualityScore c d g b) ∧
    specLetter 90 = "A" ∧ specLetter (89999 / 1000) = "B" ∧
    specLetter 75 = "B" ∧ specLetter (74999 / 1000) = "C" ∧
    specLetter 60 = "C" ∧ specLetter (59999 / 1000) = "D" ∧
    specLetter 40 = "D" ∧ specLetter (39999 / 1000) = "F" := by
  constructor
  · have key : ∀ x y : ℚ, x = y →
        (if 90 ≤ x then "A" else if 75 ≤ x then "B" else if 60 ≤ x then "C"
         else if 40 ≤ x then "D" else "F") = specLetter y := by
      intro x y h; rw [h]; rfl
    simp only [determine_grade]
    apply key
    unfold specQualityScore
    split_ifs <;> ring
  · refine ⟨?_, ?_, ?_, ?_, ?_, ?_, ?_, ?_⟩ <;> norm_num [specLetter]

/-- C2: for a forecast whose city name is found in the geocoding cache, the
loop body of enrich_forecasts always writes validated_city,
validated_postal_code and geocoding_score from the match, and overwrites
latitude and longitude with the geocoded coordinates exactly when the match
is_valid, leaving the originally supplied coordinates untouched otherwise. -/
theorem C2_enrich_conditional_overwrite (cache : GeoCache) (f : Forecast)
    (geo : GeocodingResult) (h : cache f.original_city_name = some geo) :
    (enrichOne cache f).validated_city = geo.city ∧
    (enrichOne cache f).validated_postal_code = geo.postal_code ∧
    (enrichOne cache f).geocoding_score = some geo.score ∧
    (enrichOne cache f).latitude =
      (if geo.is_valid then geo.latitude else f.latitude) ∧
    (enrichOne cache f).longitude =
      (if geo.is_valid then geo.longitude else f.longitude) := by
  unfold enrichOne
  rw [h]
  cases hv : geo.is_valid <;> simp [hv]

/-- Witness for C2 at the concrete one-entry cache and Paris record. -/
theorem C2_enrich_conditional_overwrite_witness :
    (enrichOne demoCache fcParis).validated_city = demoGeoValid.city ∧
    (enrichOne demoCache fcParis).validated_postal_code =
      demoGeoValid.postal_code ∧
    (enrichOne demoCache fcParis).geocoding_score =
      some demoGeoValid.score ∧
    (enrichOne demoCache fcParis).latitude =
      (if demoGeoValid.is_valid then demoGeoValid.latitude
       else fcParis.latitude) ∧
    (enrichOne demoCache fcParis).longitude =
      (if demoGeoValid.is_valid then demoGeoValid.longitude
       else fcParis.longitude) :=
  C2_enrich_conditional_overwrite demoCache fcParis demoGeoValid (by decide)

/-- C4: the QualityScorer counts as duplicates the rows sharing the
(date, original_city_name) pair with an earlier row — so counted duplicates
plus distinct keys exhaust the rows — duplicates_pct is duplicates over
total rows times 100, valid_records is total minus the duplicate count, and
the duplicate-removal stage of the pipeline keys on (date, latitude,
longitude) instead: two rows sharing date and coordinates under different
city names are collapsed by remove_duplicates yet counted as zero duplicates
by the scorer. -/
theorem C4_duplicate_key_and_metrics :
    (∀ fs : List Forecast,
      (dedupFirst (fs.map dupKey)).length + count_duplicates fs =
        fs.length) ∧
    (∀ fs : List Forecast, fs ≠ [] →
      duplicates_pct fs * (fs.length : ℚ) =
        (count_duplicates fs : ℚ) * 100) ∧
    duplicates_pct [] = 0 ∧
    (∀ fs : List Forecast,
      valid_records fs = (fs.length : Int) - (count_duplicates fs : Int)) ∧
    remove_duplicates [fcParis, fcLyonSameCoords] = [fcParis] ∧
    count_duplicates [fcParis, fcLyonSameCoords] = 0 := by
  refine ⟨?_, ?_, rfl, fun fs => rfl, by decide, by decide⟩
  · intro fs
    have h := countDup_distinct fs []
    simpa [dedupFirst, count_duplicates] using h
  · intro fs hfs
    have hlen : 0 < fs.length := List.length_pos.mpr hfs
    have hq : (fs.length : ℚ) ≠ 0 := Nat.cast_ne_zero.mpr hlen.ne'
    unfold duplicates_pct
    rw [if_pos hlen]
    field_simp

/-- Witness for C4 at a concrete non-empty one-row batch. -/
theorem C4_duplicate_key_and_metrics_witness :
    duplicates_pct [fcParis] * (([fcParis] : List Forecast).length : ℚ) =
      (count_duplicates [fcParis] : ℚ) * 100 :=
  C4_duplicate_key_and_metrics.2.1 [fcParis] (by simp)

/-- C7: enrichment is total and its counters reflect actual outcomes:
total_processed is the number of input records, successfully_enriched counts
the records matched in the cache with an is_valid result, failed_enrichment
counts the records matched with a non-valid result, a record absent from the
cache is counted in neither and passes through unchanged (so fields that were
null stay null), and the derived success rate is successfully_enriched over
total_processed times 100, and 0 when nothing was processed. -/
theorem C7_enrichment_counters (cache : GeoCache) (fs : List Forecast) :
    (enrich_forecasts cache fs initStats).2.total_processed = fs.length ∧
    (enrich_forecasts cache fs initStats).2.successfully_enriched =
      fs.countP (matchedValid cache) ∧
    (enrich_forecasts cache fs initStats).2.failed_enrichment =
      fs.countP (matchedInvalid cache) ∧
    (∀ f, cache f.original_city_name = none →
      matchedValid cache f = false ∧ matchedInvalid cache f = false ∧
      enrichOne cache f = f) ∧
    (fs = [] → success_rate (enrich_forecasts cache fs initStats).2 = 0) ∧
    (fs ≠ [] → success_rate (enrich_forecasts cache fs initStats).2 =
      (fs.countP (matchedValid cache) : ℚ) / (fs.length : ℚ) * 100) := by
  have h := enrich_forecasts_eq cache fs initStats
  rw [h]
  refine ⟨by simp [initStats], by simp [initStats], by simp [initStats],
    ?_, ?_, ?_⟩
  · intro f hf
    unfold matchedValid matchedInvalid enrichOne
    rw [hf]
    exact ⟨rfl, rfl, rfl⟩
  · intro hnil
    subst hnil
    simp [success_rate, initStats]
  · intro hne
    have hlen : 0 < fs.length := List.length_pos.mpr hne
    simp only [success_rate, initStats, Nat.zero_add, zero_add]
    rw [if_pos hlen]

/-- Witness for C7 at the concrete cache and a one-record batch. -/
theorem C7_enrichment_counters_witness :
    (enrich_forecasts demoCache [fcParis] initStats).2.total_processed =
      ([fcParis] : List Forecast).length ∧
    success_rate (enrich_forecasts demoCache [fcParis] initStats).2 =
      (([fcParis] : List Forecast).countP (matchedValid demoCache) : ℚ) /
        (([fcParis] : List Forecast).length : ℚ) * 100 ∧
    matchedValid demoCache fcPadded = false ∧
    enrichOne demoCache fcPadded = fcPadded :=
  ⟨(C7_enrichment_counters demoCache [fcParis]).1,
   (C7_enrichment_counters demoCache [fcParis]).2.2.2.2.2 (by simp),
   ((C7_enrichment_counters demoCache [fcPadded]).2.2.2.1 fcPadded
      (by decide)).1,
   ((C7_enrichment_counters demoCache [fcPadded]).2.2.2.1 fcPadded
      (by decide)).2.2⟩

/-- C10: enrich_forecasts yields exactly one output record per input record
in the same order — the output list is the input list mapped through the pure
per-record function — and a record with no cache match passes through with
all of its original fields unchanged; the embedding is a pure function of the
inputs, so the input rows themselves are never altered. -/
theorem C10_enrich_frame (cache : GeoCache) (fs : List Forecast) :
    (enrich_forecasts cache fs initStats).1 = fs.map (enrichOne cache) ∧
    (enrich_forecasts cache fs initStats).1.length = fs.length ∧
    (∀ f, cache f.original_city_name = none → enrichOne cache f = f) := by
  have h := enrich_forecasts_eq cache fs initStats
  refine ⟨by rw [h], by rw [h]; simp, ?_⟩
  intro f hf
  unfold enrichOne
  rw [hf]

/-- Witness for C10 at the concrete cache and a record missing the cache. -/
theorem C10_enrich_frame_witness :
    (enrich_forecasts demoCache [fcPadded] initStats).1 =
      [fcPadded].map (enrichOne demoCache) ∧
    enrichOne demoCache fcPadded = fcPadded :=
  ⟨(C10_enrich_frame demoCache [fcPadded]).1,
   (C10_enrich_frame demoCache [fcPadded]).2.2 fcPadded (by decide)⟩

/-- C3 counterexample: three records referencing two distinct raw city names
(one of them only differing by surrounding whitespace) trigger a single
geocode lookup, not two — extract_addresses strips the names before
deduplicating, so the number of lookups is not the number of unique raw
names. -/
theorem C3_lookup_count_counterexample :
    (dedupFirst (([fcPadded, fcParis, fcParis] : List Forecast).map
      Forecast.original_city_name)).length = 2 ∧
    ([fcPadded, fcParis, fcParis] : List Forecast).length = 3 ∧
    geocode_lookup_calls (extract_addresses [fcPadded, fcParis, fcParis])
      = 1 ∧
    geocode_lookup_calls (extract_addresses [fcPadded, fcParis, fcParis])
      ≠ 2 := by
  exact ⟨by decide, by decide, by decide, by decide⟩

/-- C3 amended: one geocode-lookup call is issued per distinct stripped
non-blank city name; in particular, when every city name is non-empty and
carries no surrounding whitespace, building the cache issues exactly k calls
for k unique names among the records. -/
theorem C3_one_lookup_per_unique_name (fs : List Forecast)
    (h : ∀ f ∈ fs, pyStrip f.original_city_name = f.original_city_name ∧
      f.original_city_name ≠ "") :
    geocode_lookup_calls (extract_addresses fs) =
      (dedupFirst (fs.map Forecast.original_city_name)).length := by
  unfold geocode_lookup_calls extract_addresses dedupFirst
  rw [List.foldl_map, extract_eq_dedup_of_clean fs [] h]

/-- Witness for the amended C3: three records over two clean unique names
issue exactly two lookups. -/
theorem C3_one_lookup_per_unique_name_witness :
    geocode_lookup_calls
      (extract_addresses [fcParis, fcLyonSameCoords, fcParis]) =
    (dedupFirst (([fcParis, fcLyonSameCoords, fcParis] : List Forecast).map
      Forecast.original_city_name)).length :=
  C3_one_lookup_per_unique_name [fcParis, fcLyonSameCoords, fcParis]
    (by decide)

/-- C5 counterexample: extraction is not a raw-string deduplication and the
per-record lookup key is not the extraction key — a record named with
surrounding whitespace is extracted as its stripped form, its raw name is
absent from both the extracted addresses and the cache built over them, and
its enrichment misses the cache entirely. -/
theorem C5_raw_key_counterexample :
    extract_addresses [fcPadded] = ["Paris"] ∧
    fcPadded.original_city_name ∉ extract_addresses [fcPadded] ∧
    build_geocoding_cache demoLookup (extract_addresses [fcPadded])
      fcPadded.original_city_name = none ∧
    enrichOne
      (build_geocoding_cache demoLookup (extract_addresses [fcPadded]))
      fcPadded = fcPadded := by
  exact ⟨by decide, by decide, by decide, by decide⟩

/-- C5 amended: the addresses sent to geocoding are the stripped city names
deduplicated by case-sensitive exact match (blank names dropped), and the
per-record cache lookup uses the raw name, so a record finds its cache entry
whenever its raw name is already stripped and non-empty. -/
theorem C5_trimmed_dedup_and_lookup (fs : List Forecast)
    (lookup : String → GeocodingResult)
    (hlk : ∀ a, (lookup a).original_address = a) :
    (∀ a ∈ extract_addresses fs,
      ∃ f ∈ fs, a = pyStrip f.original_city_name) ∧
    (∀ f ∈ fs, pyStrip f.original_city_name ≠ "" →
      pyStrip f.original_city_name ∈ extract_addresses fs) ∧
    (∀ f ∈ fs, pyStrip f.original_city_name = f.original_city_name →
      f.original_city_name ≠ "" →
      build_geocoding_cache lookup (extract_addresses fs)
        f.original_city_name = some (lookup f.original_city_name)) := by
  refine ⟨?_, ?_, ?_⟩
  · intro a ha
    rcases mem_foldl_extractStep_inv fs [] a ha with hacc | h
    · simp at hacc
    · exact h
  · intro f hf hne
    exact strip_mem_foldl_extractStep fs [] f hf hne
  · intro f hf heq hne
    have hmem : f.original_city_name ∈ extract_addresses fs := by
      have hm := strip_mem_foldl_extractStep fs [] f hf (by rw [heq]; exact hne)
      rwa [heq] at hm
    rw [build_geocoding_cache_apply lookup hlk, if_pos hmem]

/-- Witness for the amended C5: the clean Paris record finds its cache
entry under its raw name. -/
theorem C5_trimmed_dedup_and_lookup_witness :
    build_geocoding_cache demoLookup (extract_addresses [fcParis])
      fcParis.original_city_name =
      some (demoLookup fcParis.original_city_name) :=
  (C5_trimmed_dedup_and_lookup [fcParis] demoLookup (fun _ => rfl)).2.2
    fcParis (by decide) (by decide) (by decide)

/-- C6 counterexample: a directory holding only a non-markdown file whose
name carries the current-date prefix matches the claimed pattern
prefix_date_* yet file_exists_for_today returns false — the source globs
prefix_date_*.md, restricting the match to markdown reports. -/
theorem C6_md_extension_counterexample :
    specGuardMatch cexFilesJson "meteo_quality" "20261012" = true ∧
    file_exists_for_today cexFilesJson "meteo_quality" "20261012" = false := by
  exact ⟨by decide, by decide⟩

/-- C6 amended: file_exists_for_today is true exactly when some listed file
decomposes as prefix_date_ then anything then .md; the pipeline guard turns a
true result into the skipped_incremental status before step 1 and proceeds
otherwise; a markdown report carrying the current date makes the guard skip
while a listing holding only the report of the previous day does not. -/
theorem C6_guard_matches_md_reports (files : List String) (pre d : String) :
    (file_exists_for_today files pre d = true ↔
      ∃ name, name ∈ files ∧ ∃ mid : List Char,
        name.toList = (pre ++ "_" ++ d ++ "_").toList ++ mid
          ++ ".md".toList) ∧
    (file_exists_for_today files "meteo_quality" d = true →
      run_pipeline_guard files d = "skipped_incremental") ∧
    (file_exists_for_today files "meteo_quality" d = false →
      run_pipeline_guard files d = "proceeds") ∧
    file_exists_for_today reportFilesToday "meteo_quality" "20261012"
      = true ∧
    file_exists_for_today reportFilesYesterdayOnly "meteo_quality" "20261012"
      = false := by
  refine ⟨?_, ?_, ?_, by decide, by decide⟩
  · unfold file_exists_for_today
    simp only [List.any_eq_true, globStarMatch_iff]
  · intro h
    simp [run_pipeline_guard, h]
  · intro h
    simp [run_pipeline_guard, h]

/-- Witness for the amended C6: with the current-date report present the
pipeline is skipped, and the previous-day listing does not trigger it. -/
theorem C6_guard_matches_md_reports_witness :
    run_pipeline_guard reportFilesToday "20261012" = "skipped_incremental" ∧
    run_pipeline_guard reportFilesYesterdayOnly "20261012" = "proceeds" :=
  ⟨(C6_guard_matches_md_reports reportFilesToday "meteo_quality"
      "20261012").2.1 (by decide),
   (C6_guard_matches_md_reports reportFilesYesterdayOnly "meteo_quality"
      "20261012").2.2.1 (by decide)⟩

/-- C8: the recommendation generation tries the ordered provider list in
priority order, treats an authentication failure and any other per-provider
failure as non-fatal by moving to the next provider, returns the text of the
first successful provider, returns the fixed degraded message once the list
is exhausted (also when it is empty), and being a total function it never
lets an exception escape. -/
theorem C8_provider_fallback (call : ProviderConfig → ProviderOutcome)
    (ps₁ ps₂ : List ProviderConfig) (p : ProviderConfig) (t : String) :
    ((∀ q ∈ ps₁, ∀ s, call q ≠ ProviderOutcome.ok s) →
      call p = ProviderOutcome.ok t →
      generate_ai_recommendations call (ps₁ ++ p :: ps₂) = t) ∧
    ((∀ q ∈ ps₁ ++ p :: ps₂, ∀ s, call q ≠ ProviderOutcome.ok s) →
      generate_ai_recommendations call (ps₁ ++ p :: ps₂) =
        fallbackMessage) ∧
    generate_ai_recommendations call [] = fallbackMessage := by
  refine ⟨?_, fun h => generate_all_fail call _ h, rfl⟩
  induction ps₁ with
  | nil =>
      intro _ hok
      simp only [List.nil_append]
      unfold generate_ai_recommendations
      rw [hok]
  | cons q qs ih =>
      intro hfail hok
      simp only [List.cons_append]
      unfold generate_ai_recommendations
      cases hc : call q with
      | ok s => exact absurd hc (hfail q (List.mem_cons_self q qs) s)
      | authError =>
          exact ih (fun r hr => hfail r (List.mem_cons_of_mem q hr)) hok
      | otherError e =>
          exact ih (fun r hr => hfail r (List.mem_cons_of_mem q hr)) hok

/-- Witness for C8 on the source provider list: gemini fails authentication
and the ollama text is returned; with every provider failing the fixed
degraded message is returned. -/
theorem C8_provider_fallback_witness :
    generate_ai_recommendations demoCallOk
        (models_to_try "http://localhost:11434") =
      "Corriger les coordonnées dupliquées." ∧
    generate_ai_recommendations demoCallAllFail
        (models_to_try "http://localhost:11434") = fallbackMessage :=
  ⟨(C8_provider_fallback demoCallOk
      [⟨"gemini/gemini-2.5-flash-lite", none⟩] []
      ⟨"ollama/mistral", some "http://localhost:11434"⟩
      "Corriger les coordonnées dupliquées.").1
      (by
        intro q hq s h
        rcases List.mem_singleton.mp hq with rfl
        simp [demoCallOk] at h)
      (by decide),
   (C8_provider_fallback demoCallAllFail
      [⟨"gemini/gemini-2.5-flash-lite", none⟩] []
      ⟨"ollama/mistral", some "http://localhost:11434"⟩ "").2.1
      (fun q _ s h => ProviderOutcome.noConfusion h)⟩

/-- C9: with ordered threshold cut points all below 50, the derived
precipitation bucket is monotone in precipitation_sum — a higher sum never
yields a strictly lower bucket — and a precipitation_sum of 50 is always
classified into the highest bucket, labelled forte. -/
theorem C9_precipitation_monotone (c1 c2 c3 p q : ℚ)
    (h12 : c1 ≤ c2) (h23 : c2 ≤ c3) (h50 : c3 < 50) (hpq : p ≤ q) :
    precipitationBucket c1 c2 c3 p ≤ precipitationBucket c1 c2 c3 q ∧
    precipitation_category c1 c2 c3 50 = "forte" := by
  constructor
  · unfold precipitationBucket
    split_ifs <;> first | omega | linarith
  · unfold precipitation_category precipitationBucket
    rw [if_neg (by linarith), if_neg (by linarith), if_neg (by linarith)]
    rfl

/-- Witness for C9 at the concrete cut points 1, 10, 30 and sums 3 and 7. -/
theorem C9_precipitation_monotone_witness :
    precipitationBucket 1 10 30 3 ≤ precipitationBucket 1 10 30 7 ∧
    precipitation_category 1 10 30 50 = "forte" :=
  C9_precipitation_monotone 1 10 30 3 7 (by norm_num) (by norm_num)
    (by norm_num) (by norm_num)

end PipelineModel
